import Mathlib

/-!
Verification of the multi-provider fallback and response-normalization
routine of the caption/alt-text web service
(`backend/imageAnalysisService.js`).

The embedding models JavaScript strings as Lean `String`s (lists of
characters); the string post-processors are translated on `List Char`
and wrapped for `String`.  Network calls are replaced by scripted
per-provider outcomes: each provider attempt either fails at the
gateway (network error / non-2xx / timeout) or returns a raw response
body, which the code then shape-sniffs.
-/

namespace CaptionAI

/-- The externally visible success value: `{altText, caption}`. -/
structure AnalysisResult where
  altText : String
  caption : String
deriving DecidableEq

/-- `getMockAnalysisResults` from the source: the fixed placeholder
returned when no token is configured or when no caption provider
succeeds. -/
def getMockAnalysisResults : AnalysisResult :=
  { altText := "Example image showing content that would normally be analyzed by AI"
    caption := "This is a placeholder caption for demonstration purposes. In production, this would be replaced with AI-generated analysis describing the content, context, and details of the uploaded image." }

/-- JavaScript `String.prototype.trim()`: drop whitespace from both
ends. -/
def jsTrim (l : List Char) : List Char :=
  ((l.dropWhile Char.isWhitespace).reverse.dropWhile Char.isWhitespace).reverse

/-- `formatAltText` on character lists, line for line from the source:

* `let altText = text.trim();`
* `if (altText.endsWith('.')) altText = altText.slice(0, -1);`
* ``altText = `${altText.charAt(0).toUpperCase()} ${altText.slice(1)}`;``
  (note the space between the two interpolations in the template literal)
* `if (altText.length > 125) altText = altText.substring(0, 122) + '...';`
-/
def formatAltTextL (text : List Char) : List Char :=
  let t1 := jsTrim text
  let t2 := if t1.getLast? = some '.' then t1.dropLast else t1
  let t3 := (t2.take 1).map Char.toUpper ++ ' ' :: t2.drop 1
  if 125 < t3.length then t3.take 122 ++ ['.', '.', '.'] else t3

/-- `formatAltText` from the source, on `String`. -/
def formatAltText (text : String) : String :=
  ⟨formatAltTextL text.data⟩

/-- The one-shot anchored replacement
`detailedText.replace(/^(Caption: |Description: |Image shows: )/, '')`:
strip a single known boilerplate marker from the start, if present. -/
def stripBoilerplate (l : List Char) : List Char :=
  if ("Caption: ".data).isPrefixOf l then l.drop 9
  else if ("Description: ".data).isPrefixOf l then l.drop 13
  else if ("Image shows: ".data).isPrefixOf l then l.drop 13
  else l

/-- `formatCaption` on character lists, from the source:
if the detailed text is truthy and strictly longer than the basic
caption, return it with boilerplate stripped; otherwise return the
basic caption, with `` ` The image contains: ${classifications}.` ``
appended when the classification string is truthy. -/
def formatCaptionL (detailedText basicCaption classifications : List Char) :
    List Char :=
  if detailedText ≠ [] ∧ basicCaption.length < detailedText.length then
    stripBoilerplate detailedText
  else if classifications ≠ [] then
    basicCaption ++ (" The image contains: ".data) ++ classifications ++ ['.']
  else basicCaption

/-- `formatCaption` from the source, on `String`. -/
def formatCaption (detailedText basicCaption classifications : String) :
    String :=
  ⟨formatCaptionL detailedText.data basicCaption.data classifications.data⟩

/-- JavaScript truthiness of an optional string field: an absent field
and the empty string are falsy. -/
def truthyString : Option String → Option String
  | some s => if s = "" then none else some s
  | none => none

/-- Raw response body of a caption/analysis provider, as shape-sniffed
by the source: an array of objects (only the first element's
`generated_text` is consulted), a single object with an optional
`generated_text` field, a bare string, or anything else. -/
inductive RawData where
  | arr (entries : List (Option String))
  | obj (generated_text : Option String)
  | str (s : String)
  | other
deriving DecidableEq

/-- The chained shape checks of the caption/analysis loops:
`Array.isArray(data) && data[0]?.generated_text`, then
`typeof data === 'object' && data.generated_text`, then
`typeof data === 'string'` (with JavaScript truthiness at each step);
any other shape is unusable. -/
def normalizeCaption : RawData → Option String
  | .arr entries => truthyString entries.head?.join
  | .obj g => truthyString g
  | .str s => truthyString (some s)
  | .other => none

/-- One scripted caption/analysis provider attempt: the gateway call
either throws (network error, non-2xx, timeout) or yields a raw body. -/
inductive ProviderOutcome where
  | gatewayError
  | response (data : RawData)
deriving DecidableEq

/-- The usable text a single caption/analysis attempt contributes:
a thrown gateway error is caught and contributes nothing; a response
is normalized. -/
def outcomeText : ProviderOutcome → Option String
  | .gatewayError => none
  | .response d => normalizeCaption d

/-- The caption (and identically the analysis) provider loop of
`analyzeImageWithAI`: try providers in order, stop at the first usable
normalized text.  Returns the winning text (if any) and the number of
providers actually invoked. -/
def captionLoop : List ProviderOutcome → Option String × Nat
  | [] => (none, 0)
  | o :: rest =>
    match outcomeText o with
    | some t => (some t, 1)
    | none =>
      let r := captionLoop rest
      (r.1, r.2 + 1)

/-- One entry of an array-shaped classification response: an object
with optional `label` / `generated_text` fields, a bare string, or
anything else (for example a number). -/
inductive ClassEntry where
  | obj (label : Option String) (generated_text : Option String)
  | str (s : String)
  | other
deriving DecidableEq

/-- `item.label || item.generated_text || item` followed by the
`typeof label === 'string'` filter, for a single entry: the result is
the extracted string, or `none` when the chain ends on a non-string. -/
def entryLabelValue : ClassEntry → Option String
  | .obj l g =>
    match truthyString l with
    | some l' => some l'
    | none => truthyString g
  | .str s => some s
  | .other => none

/-- `data.slice(0, 3).map(item => item.label || item.generated_text ||
item).filter(label => typeof label === 'string')` from the source:
the first three entries are consulted, labels extracted, non-strings
discarded. -/
def classificationLabels (entries : List ClassEntry) : List String :=
  (entries.take 3).filterMap entryLabelValue

/-- Raw response body of a classification provider: the source only
acts on array bodies. -/
inductive ClassData where
  | arr (entries : List ClassEntry)
  | notArray
deriving DecidableEq

/-- One scripted classification provider attempt. -/
inductive ClassOutcome where
  | gatewayError
  | response (data : ClassData)
deriving DecidableEq

/-- The labels a single classification attempt contributes: a thrown
gateway error or a non-array body contributes nothing. -/
def outcomeLabels : ClassOutcome → List String
  | .gatewayError => []
  | .response .notArray => []
  | .response (.arr es) => classificationLabels es

/-- The classification provider loop of `analyzeImageWithAI`: try
providers in order; success requires at least one surviving label.
Returns the success flag with the recorded labels, and the number of
providers actually invoked. -/
def classificationLoop : List ClassOutcome → (Bool × List String) × Nat
  | [] => ((false, []), 0)
  | o :: rest =>
    let ls := outcomeLabels o
    if ls ≠ [] then ((true, ls), 1)
    else
      let r := classificationLoop rest
      (r.1, r.2 + 1)

/-- `results.classifications.join(', ')`. -/
def joinLabels (ls : List String) : String :=
  String.intercalate ", " ls

/-- The caption-assembly branch of `analyzeImageWithAI`:
`if (results.analysisSuccess && results.analysisText) ... else if
(results.classificationSuccess) ... else ...`. -/
def buildCaption (captionText : String) (analysis : Option String)
    (clsSuccess : Bool) (labels : List String) : String :=
  match analysis with
  | some analysisText =>
    if analysisText ≠ "" then
      formatCaption analysisText captionText (joinLabels labels)
    else if clsSuccess then
      captionText ++ ". This image contains: " ++ joinLabels labels ++ "."
    else captionText
  | none =>
    if clsSuccess then
      captionText ++ ". This image contains: " ++ joinLabels labels ++ "."
    else captionText

/-- A run of `analyzeImageWithAI` together with its invocation trace:
how many providers of each capability list were actually called. -/
structure AnalyzeTrace where
  result : AnalysisResult
  captionCalls : Nat
  analysisCalls : Nat
  classificationCalls : Nat
deriving DecidableEq

/-- `analyzeImageWithAI` from the source, over scripted provider
outcomes, with invocation accounting.  Without a token the mock is
returned before any provider is called; the analysis and
classification loops are only entered when the caption loop succeeded;
when the caption loop fails the mock is returned. -/
def analyzeRun (hasToken : Bool) (capOuts anaOuts : List ProviderOutcome)
    (clsOuts : List ClassOutcome) : AnalyzeTrace :=
  if hasToken = false then ⟨getMockAnalysisResults, 0, 0, 0⟩
  else
    match captionLoop capOuts with
    | (none, capN) => ⟨getMockAnalysisResults, capN, 0, 0⟩
    | (some captionText, capN) =>
      let ana := captionLoop anaOuts
      let cls := classificationLoop clsOuts
      ⟨⟨formatAltText captionText,
        buildCaption captionText ana.1 cls.1.1 cls.1.2⟩, capN, ana.2, cls.2⟩

/-- The result `analyzeImageWithAI` hands back to its caller. -/
def analyzeImageWithAI (hasToken : Bool)
    (capOuts anaOuts : List ProviderOutcome)
    (clsOuts : List ClassOutcome) : AnalysisResult :=
  (analyzeRun hasToken capOuts anaOuts clsOuts).result

/-- The single scripted attempt of `textToImageWithAI`. -/
inductive GenerationOutcome where
  | gatewayError
  | ok (bytes : List Nat)
deriving DecidableEq

/-- What `textToImageWithAI` can hand back: raw image bytes, the mock
analysis-results object, or a propagated exception. -/
inductive GenerationResult where
  | imageBytes (bytes : List Nat)
  | mockObject (r : AnalysisResult)
  | thrown
deriving DecidableEq

/-- `textToImageWithAI` from the source.  Without a token it returns
the mock object.  The inner `catch` rethrows a failed provider call,
but the outer `catch` catches that rethrow and returns
`getMockAnalysisResults()`, so the function never produces `thrown`. -/
def textToImageWithAI (hasToken : Bool) (outcome : GenerationOutcome) :
    GenerationResult :=
  if hasToken = false then .mockObject getMockAnalysisResults
  else
    match outcome with
    | .ok b => .imageBytes b
    | .gatewayError => .mockObject getMockAnalysisResults

/-- Modelled from the spec's words (§4.2, classification): filter out
non-string results first, then take at most the first 3 surviving
labels in their original order.  Declared only to compare against the
source's `classificationLabels`, which slices before filtering. -/
def specClassificationLabels (entries : List ClassEntry) : List String :=
  (entries.filterMap entryLabelValue).take 3

/-- A concrete 200-character input for the `formatAltText` length
budget: 200 copies of `'a'`. -/
def sampleInput200 : String :=
  ⟨List.replicate 200 'a'⟩

theorem truthyString_ne_empty {g : Option String} {t : String}
    (h : truthyString g = some t) : t ≠ "" := by
  cases g with
  | none => exact absurd h (by simp [truthyString])
  | some s =>
    simp only [truthyString] at h
    split at h
    · exact absurd h (by simp)
    · next hs =>
      simp only [Option.some.injEq] at h
      subst h
      exact hs

theorem outcomeText_ne_empty {o : ProviderOutcome} {t : String}
    (h : outcomeText o = some t) : t ≠ "" := by
  cases o with
  | gatewayError => exact absurd h (by simp [outcomeText])
  | response d =>
    simp only [outcomeText] at h
    cases d with
    | arr entries =>
      simp only [normalizeCaption] at h
      exact truthyString_ne_empty h
    | obj g =>
      simp only [normalizeCaption] at h
      exact truthyString_ne_empty h
    | str s =>
      simp only [normalizeCaption] at h
      exact truthyString_ne_empty h
    | other => exact absurd h (by simp [normalizeCaption])

theorem captionLoop_text_ne_empty {outs : List ProviderOutcome} {t : String}
    (h : (captionLoop outs).1 = some t) : t ≠ "" := by
  induction outs with
  | nil => exact absurd h (by simp [captionLoop])
  | cons o rest ih =>
    cases ho : outcomeText o with
    | some u =>
      simp only [captionLoop, ho, Option.some.injEq] at h
      subst h
      exact outcomeText_ne_empty ho
    | none =>
      simp only [captionLoop, ho] at h
      exact ih h

theorem captionLoop_all_unusable {outs : List ProviderOutcome}
    (h : ∀ x ∈ outs, outcomeText x = none) :
    captionLoop outs = (none, outs.length) := by
  induction outs with
  | nil => rfl
  | cons o rest ih =>
    have ho : outcomeText o = none := h o (by simp)
    have hr := ih (fun y hy => h y (by simp [hy]))
    simp [captionLoop, ho, hr]

theorem string_eq_empty_iff (s : String) : s = "" ↔ s.data = [] := by
  constructor
  · intro h
    rw [h]
  · intro h
    cases s with
    | mk l =>
      subst h
      rfl

theorem string_mk_ne_empty {l : List Char} (h : l ≠ []) :
    String.mk l ≠ "" := by
  intro he
  exact h ((string_eq_empty_iff _).mp he)

theorem string_append_ne_empty_right {a b : String} (hb : b ≠ "") :
    a ++ b ≠ "" := by
  intro h
  apply hb
  rw [string_eq_empty_iff] at h ⊢
  rw [String.data_append] at h
  exact (List.append_eq_nil.mp h).2

theorem formatAltTextL_ne_nil (l : List Char) : formatAltTextL l ≠ [] := by
  simp only [formatAltTextL]
  split <;> split <;> simp

theorem formatAltText_ne_empty (s : String) : formatAltText s ≠ "" :=
  string_mk_ne_empty (formatAltTextL_ne_nil s.data)

set_option maxRecDepth 10000 in
/-- Claim C1: with a provider credential configured, a failed
generation provider call does not propagate to the caller — the outer
catch of `textToImageWithAI` swallows the rethrown error and returns
the mock analysis-results object instead (an altText/caption
placeholder object, not image bytes). -/
theorem textToImage_gatewayError_returns_mock :
    textToImageWithAI true .gatewayError =
      .mockObject getMockAnalysisResults := by
  decide

/-- Claim C2: the capitalization template of `formatAltText` inserts a
space between the uppercased first character and the rest, so
`formatAltText "a cat."` evaluates to `"A  cat"` (double space) rather
than `"A cat"`, and `formatAltText ""` evaluates to `" "` rather than
`""`. -/
theorem formatAltText_capitalization_slip :
    formatAltText "a cat." = "A  cat" ∧ formatAltText "" = " " := by
  decide

/-- Claim C6, counterexample: the caption built from an empty detailed
text and labels `["animal", "grass"]` is not the comma-separated
`"a dog, The image contains: animal, grass."` the claim states. -/
theorem formatCaption_comma_counterexample :
    formatCaption "" "a dog" (joinLabels ["animal", "grass"]) ≠
      "a dog, The image contains: animal, grass." := by
  decide

/-- Claim C6 (amended): with an empty detailed text and non-empty
labels, the basic caption is followed by a single space, then
`"The image contains: "`, the comma-joined labels and a final period —
there is no comma after the basic caption. -/
theorem formatCaption_space_join :
    formatCaption "" "a dog" (joinLabels ["animal", "grass"]) =
      "a dog The image contains: animal, grass." := by
  decide

/-- Claim C7, counterexample: on the entry sequence
`[non-string, "a", "b", "c"]` the source normalization returns
`["a", "b"]` (it slices to the first 3 entries before filtering),
while the claimed filter-then-take policy would return
`["a", "b", "c"]`. -/
theorem classificationLabels_counterexample :
    classificationLabels [.other, .str "a", .str "b", .str "c"] ≠
      specClassificationLabels [.other, .str "a", .str "b", .str "c"] := by
  decide

/-- Claim C7 (amended): classification normalization consults only the
first 3 entries, extracts each one's label (`label` field, else
`generated_text` field, else the entry itself when it is a string) and
discards non-string results; the outcome has at most 3 labels and is a
prefix, in original order, of the surviving labels of the whole
sequence — but fewer than 3 labels may be returned even when entries
past the third would survive. -/
theorem classificationLabels_take3_then_filter (entries : List ClassEntry) :
    (classificationLabels entries).length ≤ 3 ∧
    classificationLabels entries = classificationLabels (entries.take 3) ∧
    classificationLabels entries <+: entries.filterMap entryLabelValue := by
  refine ⟨?_, ?_, ?_⟩
  · calc (classificationLabels entries).length
        ≤ (entries.take 3).length := List.length_filterMap_le _ _
      _ ≤ 3 := by rw [List.length_take]; exact Nat.min_le_left _ _
  · simp [classificationLabels, List.take_take]
  · refine ⟨(entries.drop 3).filterMap entryLabelValue, ?_⟩
    show (entries.take 3).filterMap entryLabelValue ++ _ = _
    rw [← List.filterMap_append, List.take_append_drop]

/-- Claim C8, counterexample: for the empty text, none of the three
recognized caption shapes normalizes to the extracted empty text —
JavaScript truthiness makes all three unusable. -/
theorem normalizeCaption_empty_text_counterexample :
    normalizeCaption (.arr [some ""]) ≠ some "" ∧
    normalizeCaption (.obj (some "")) ≠ some "" ∧
    normalizeCaption (.str "") ≠ some "" := by
  decide

/-- Claim C8 (amended): for every non-empty text `t`, the three
recognized caption shapes carrying `t` — a non-empty array whose first
element has `generated_text = t`, a single object with
`generated_text = t`, and the bare string `t` — all normalize to the
same extracted text `t`; the empty text is unusable in all three
shapes. -/
theorem normalizeCaption_shape_invariant (t : String)
    (rest : List (Option String)) (h : t ≠ "") :
    normalizeCaption (.arr (some t :: rest)) = some t ∧
    normalizeCaption (.obj (some t)) = some t ∧
    normalizeCaption (.str t) = some t := by
  simp [normalizeCaption, truthyString, h]

/-- Witness for `normalizeCaption_shape_invariant` at the concrete
text `"cat"`. -/
theorem normalizeCaption_shape_invariant_witness :
    normalizeCaption (.arr [some "cat", none]) = some "cat" ∧
    normalizeCaption (.obj (some "cat")) = some "cat" ∧
    normalizeCaption (.str "cat") = some "cat" :=
  normalizeCaption_shape_invariant "cat" [none] (by decide)

/-- Claim C3: in the caption/analysis loop and in the classification
loop alike, when every provider before position `k` is unusable and
the provider at position `k` yields a usable normalized result, the
loop stops having invoked exactly the first `k+1` providers —
providers `k+2..n` are never called — and records success with
provider `k`'s text (respectively labels). -/
theorem providerLoops_shortCircuit :
    (∀ (pre post : List ProviderOutcome) (o : ProviderOutcome) (t : String),
      (∀ x ∈ pre, outcomeText x = none) → outcomeText o = some t →
      captionLoop (pre ++ o :: post) = (some t, pre.length + 1)) ∧
    (∀ (pre post : List ClassOutcome) (o : ClassOutcome),
      (∀ x ∈ pre, outcomeLabels x = []) → outcomeLabels o ≠ [] →
      classificationLoop (pre ++ o :: post) =
        ((true, outcomeLabels o), pre.length + 1)) := by
  constructor
  · intro pre post o t hpre ho
    induction pre with
    | nil => simp [captionLoop, ho]
    | cons x xs ih =>
      have hx : outcomeText x = none := hpre x (by simp)
      have ihh := ih (fun y hy => hpre y (by simp [hy]))
      simp [captionLoop, hx, ihh]
  · intro pre post o hpre ho
    induction pre with
    | nil => simp [classificationLoop, ho]
    | cons x xs ih =>
      have hx : outcomeLabels x = [] := hpre x (by simp)
      have ihh := ih (fun y hy => hpre y (by simp [hy]))
      simp [classificationLoop, hx, ihh]

/-- Witness for `providerLoops_shortCircuit`: with one unusable
provider before the winner and one provider after it, both loops stop
after two invocations. -/
theorem providerLoops_shortCircuit_witness :
    captionLoop [.gatewayError, .response (.str "cat"), .response (.str "dog")] =
      (some "cat", 2) ∧
    classificationLoop
        [.gatewayError, .response (.arr [.str "animal"]), .gatewayError] =
      ((true, ["animal"]), 2) := by
  constructor
  · exact providerLoops_shortCircuit.1 [.gatewayError] [.response (.str "dog")]
      (.response (.str "cat")) "cat" (by decide) (by decide)
  · exact providerLoops_shortCircuit.2 [.gatewayError] [.gatewayError]
      (.response (.arr [.str "animal"])) (by decide) (by decide)

/-- Claim C4: when every provider in the caption list fails or is
unusable, `analyzeImageWithAI` returns the mock fallback constant,
having invoked every caption provider but none of the analysis or
classification providers. -/
theorem analyze_mock_on_total_caption_failure
    (capOuts anaOuts : List ProviderOutcome) (clsOuts : List ClassOutcome)
    (h : ∀ x ∈ capOuts, outcomeText x = none) :
    analyzeRun true capOuts anaOuts clsOuts =
      ⟨getMockAnalysisResults, capOuts.length, 0, 0⟩ := by
  have hc := captionLoop_all_unusable h
  simp [analyzeRun, hc]

set_option maxRecDepth 10000 in
/-- Witness for `analyze_mock_on_total_caption_failure`: two unusable
caption providers, with non-empty analysis and classification lists
that are never touched. -/
theorem analyze_mock_on_total_caption_failure_witness :
    analyzeRun true [.gatewayError, .response .other] [.response (.str "x")]
        [.response (.arr [.str "y"])] =
      ⟨getMockAnalysisResults, 2, 0, 0⟩ :=
  analyze_mock_on_total_caption_failure _ _ _ (by decide)

set_option maxRecDepth 10000 in
/-- Claim C5, counterexample: when the caption capability succeeds
with `"hi"` and the analysis capability succeeds with the text
`"Caption: "` (exactly a stripped boilerplate marker, longer than the
caption), the returned caption is the empty string — the claimed
invariant that both fields are always non-empty fails. -/
theorem analyze_empty_caption_counterexample :
    (analyzeImageWithAI true [.response (.str "hi")]
        [.response (.str "Caption: ")] []).caption = "" := by
  decide

set_option maxRecDepth 10000 in
/-- Claim C5 (amended): every `AnalysisResult` returned by a run in
which the analysis capability yields no usable text — including every
mock-fallback path — has non-empty `altText` and non-empty `caption`;
`altText` is in fact non-empty on every path, but when analysis
succeeds the caption can be empty (exactly when the analysis text is
one of the stripped boilerplate markers and longer than the caption
text). -/
theorem analyze_nonempty_without_analysis (hasToken : Bool)
    (capOuts anaOuts : List ProviderOutcome) (clsOuts : List ClassOutcome)
    (h : (captionLoop anaOuts).1 = none) :
    (analyzeImageWithAI hasToken capOuts anaOuts clsOuts).altText ≠ "" ∧
    (analyzeImageWithAI hasToken capOuts anaOuts clsOuts).caption ≠ "" := by
  have hmock : getMockAnalysisResults.altText ≠ "" ∧
      getMockAnalysisResults.caption ≠ "" := by decide
  unfold analyzeImageWithAI analyzeRun
  cases hasToken with
  | false => simpa using hmock
  | true =>
    rcases hcap : captionLoop capOuts with ⟨r, n⟩
    cases r with
    | none => simpa [hcap] using hmock
    | some c =>
      have hc : c ≠ "" := captionLoop_text_ne_empty (by rw [hcap])
      simp only [hcap, Bool.true_eq_false, if_false]
      refine ⟨formatAltText_ne_empty c, ?_⟩
      show buildCaption c (captionLoop anaOuts).1 _ _ ≠ ""
      rw [h]
      unfold buildCaption
      by_cases hcls : (classificationLoop clsOuts).1.1 = true
      · rw [if_pos hcls]
        apply string_append_ne_empty_right
        decide
      · rw [if_neg hcls]
        exact hc

/-- Witness for `analyze_nonempty_without_analysis`: a successful
caption provider with failing analysis and empty classification
lists. -/
theorem analyze_nonempty_without_analysis_witness :
    (analyzeImageWithAI true [.response (.str "hi")] [.gatewayError] []).altText
      ≠ "" ∧
    (analyzeImageWithAI true [.response (.str "hi")] [.gatewayError] []).caption
      ≠ "" :=
  analyze_nonempty_without_analysis true [.response (.str "hi")]
    [.gatewayError] [] (by decide)

/-- Claim C10: in every run where the caption loop succeeds with text
`c`, the analysis loop yields no usable text, and the classification
loop succeeds with labels `ls`, the returned caption is
`c ++ ". This image contains: " ++ (ls joined by ", ") ++ "."` — a
third caption format whose separator and wording differ from the
`formatCaption` path. -/
theorem analyze_thirdCaptionFormat
    (capOuts anaOuts : List ProviderOutcome) (clsOuts : List ClassOutcome)
    (c : String) (ls : List String)
    (h1 : (captionLoop capOuts).1 = some c)
    (h2 : (captionLoop anaOuts).1 = none)
    (h3 : (classificationLoop clsOuts).1 = (true, ls)) :
    (analyzeImageWithAI true capOuts anaOuts clsOuts).caption =
      c ++ ". This image contains: " ++ joinLabels ls ++ "." := by
  rcases hcap : captionLoop capOuts with ⟨r, n⟩
  rw [hcap] at h1
  simp only at h1
  subst h1
  unfold analyzeImageWithAI analyzeRun
  simp only [hcap, Bool.true_eq_false, if_false]
  show buildCaption c (captionLoop anaOuts).1 (classificationLoop clsOuts).1.1
      (classificationLoop clsOuts).1.2 = _
  rw [h2, h3]
  rfl

/-- Witness for `analyze_thirdCaptionFormat`: a concrete run with a
succeeding caption provider, a failing analysis provider, and a
classification provider yielding two labels. -/
theorem analyze_thirdCaptionFormat_witness :
    (analyzeImageWithAI true [.response (.str "a dog")] [.gatewayError]
        [.response (.arr [.str "animal", .str "grass"])]).caption =
      "a dog" ++ ". This image contains: " ++ joinLabels ["animal", "grass"]
        ++ "." :=
  analyze_thirdCaptionFormat [.response (.str "a dog")] [.gatewayError]
    [.response (.arr [.str "animal", .str "grass"])] "a dog"
    ["animal", "grass"] (by decide) (by decide) (by decide)

set_option maxRecDepth 10000 in
/-- Claim C9, counterexample: on the 200-character input of 200 `'a'`s
the result does have 125 characters and ends in `"..."`, but its first
122 characters are not the input's first 122 characters — the
capitalization step uppercases the first character and inserts a space
after it. -/
theorem formatAltText_truncation_counterexample :
    ¬ ((formatAltText sampleInput200).data.length = 125 ∧
       (formatAltText sampleInput200).data.drop 122 = ['.', '.', '.'] ∧
       (formatAltText sampleInput200).data.take 122 =
         sampleInput200.data.take 122) := by
  decide

/-- Claim C9 (amended): for every 200-character input that is
unchanged by trimming and does not end in a period, `formatAltText`
returns a string of exactly 125 characters whose last 3 characters are
the ellipsis marker `"..."` and whose first 122 characters are the
uppercased first character of the input, an inserted space, and then
the following 120 characters of the input — the input's own 122-character
prefix is not preserved verbatim. -/
theorem formatAltText_truncation (text : String)
    (h1 : text.data.length = 200)
    (h2 : jsTrim text.data = text.data)
    (h3 : text.data.getLast? ≠ some '.') :
    (formatAltText text).data.length = 125 ∧
    (formatAltText text).data.drop 122 = ['.', '.', '.'] ∧
    (formatAltText text).data.take 122 =
      (text.data.take 1).map Char.toUpper ++
        ' ' :: (text.data.drop 1).take 120 := by
  have hdata : (formatAltText text).data = formatAltTextL text.data := rfl
  have hlen : ((text.data.take 1).map Char.toUpper ++
      ' ' :: text.data.drop 1).length = 201 := by
    simp only [List.length_append, List.length_map, List.length_cons,
      List.length_take, List.length_drop, h1]
    omega
  have hkey : formatAltTextL text.data =
      ((text.data.take 1).map Char.toUpper ++
        ' ' :: text.data.drop 1).take 122 ++ ['.', '.', '.'] := by
    simp only [formatAltTextL, h2]
    rw [if_neg h3, if_pos (by rw [hlen]; omega)]
  have h122 : (((text.data.take 1).map Char.toUpper ++
      ' ' :: text.data.drop 1).take 122).length = 122 := by
    rw [List.length_take, hlen]
    omega
  have hA1 : ((text.data.take 1).map Char.toUpper).length = 1 := by
    simp only [List.length_map, List.length_take, h1]
    omega
  refine ⟨?_, ?_, ?_⟩
  · rw [hdata, hkey, List.length_append, h122]
    decide
  · rw [hdata, hkey, List.drop_left' h122]
  · rw [hdata, hkey, List.take_left' h122, List.take_append_eq_append_take,
      List.take_of_length_le (by rw [hA1]; omega), hA1,
      show (122 - 1 : Nat) = 120 + 1 from rfl, List.take_succ_cons]

set_option maxRecDepth 10000 in
/-- Witness for `formatAltText_truncation` at the concrete
200-character input of 200 `'a'`s. -/
theorem formatAltText_truncation_witness :
    (formatAltText sampleInput200).data.length = 125 ∧
    (formatAltText sampleInput200).data.drop 122 = ['.', '.', '.'] ∧
    (formatAltText sampleInput200).data.take 122 =
      (sampleInput200.data.take 1).map Char.toUpper ++
        ' ' :: (sampleInput200.data.drop 1).take 120 :=
  formatAltText_truncation sampleInput200 (by decide) (by decide) (by decide)

end CaptionAI
